import Mathlib

/-!
Verification development for the mini_ecom authentication and two-factor
login core (Django project `mini_ecom2`, apps under `src/mini_ecom2/`).

The definitions below are a shallow embedding of the source code:

* `accounts/serializers.py` — `CustomLoginSerializer.validate`
* `accounts/views.py` — `CustomLoginView`, `SocialLogin2FAMixin`,
  `TwoFactorVerifySetupView`, `send_verification_code`
* `accounts/adapters.py` — `CustomSocialAccountAdapter`
* `accounts/sms.py` — `SMSService`, `send_phone_verification`
* `accounts/models.py` — `PhoneVerification`

Database tables are embedded as lists of records, the Django session as an
explicit record of optional keys, and time as a natural number of seconds.
External collaborators that are not part of this repository are abstracted
exactly where the repository calls them: the TOTP code check
(`django_otp` `TOTPDevice.verify_token`) becomes an acceptance predicate
carried by the device, the static backup-token store (`django_otp`
`StaticDevice.verify_token`) is modelled by its documented single-use
consumption, the Twilio gateway becomes a boolean dispatch outcome, and the
random generators become explicit inputs.
-/

namespace MiniEcom

/-- A row of `accounts.models.CustomUser`.  `check_password` is modelled as
equality with the stored secret, so `password` stands for the credential the
hash was derived from. -/
structure User where
  id : Nat
  email : String
  username : String
  password : String
  isActive : Bool
  phoneNumber : Option String
  phoneVerified : Bool
deriving Repr, DecidableEq

/-- A row of allauth's `EmailAddress` table as used by
`CustomLoginSerializer.validate` (lines 196-212 of serializers.py). -/
structure EmailAddress where
  userId : Nat
  email : String
  verified : Bool
deriving Repr, DecidableEq

/-- A row of `django_otp` `TOTPDevice`.  Modelled from the spec: the
time-based one-time-password check (spec section 6, "Second-factor code
math") is external to this repository, so the device carries its acceptance
predicate `accepts` in place of `verify_token` over the shared secret and
the current time. -/
structure TOTPDevice where
  id : Nat
  userId : Nat
  confirmed : Bool
  accepts : String → Bool

/-- A row of `django_otp` `StaticDevice` together with its token set.
`django_otp` creates these confirmed by default; the repository only ever
creates the device named "backup" holding the backup codes. -/
structure StaticDevice where
  userId : Nat
  name : String
  confirmed : Bool
  tokens : List String

/-- The durable state read by the login flows: users, allauth email
addresses, and both `django_otp` device tables. -/
structure AuthState where
  users : List User
  emailAddresses : List EmailAddress
  totpDevices : List TOTPDevice
  staticDevices : List StaticDevice

/-- The Django session keys touched by the login flows, each `none` when the
key is absent (`session.pop` removes a key, assignment sets it). -/
structure Session where
  pendingSocialLoginUserId : Option Nat
  requires2fa : Option Bool
  socialProvider : Option String
  otpVerified : Option Bool
deriving Repr, DecidableEq

/-- `CustomUser.objects.get(email=email)`, `none` for `DoesNotExist`. -/
def findByEmail (st : AuthState) (e : String) : Option User :=
  st.users.find? fun u => u.email == e

/-- `CustomUser.objects.get(username=username)`, `none` for `DoesNotExist`. -/
def findByUsername (st : AuthState) (n : String) : Option User :=
  st.users.find? fun u => u.username == n

/-- `CustomUser.objects.get(id=user_id)`, `none` for `DoesNotExist`. -/
def findById (st : AuthState) (uid : Nat) : Option User :=
  st.users.find? fun u => u.id == uid

/-- `EmailAddress.objects.get(user=user, email=user.email)`. -/
def findEmailAddress (st : AuthState) (u : User) : Option EmailAddress :=
  st.emailAddresses.find? fun ea => ea.userId == u.id && ea.email == u.email

/-- The email-verification gate of `CustomLoginSerializer.validate`: true
exactly when an `EmailAddress` row for (user, user.email) exists and is
verified — both the missing-row and the unverified-row branches of the
source raise the same error. -/
def emailVerifiedLookup (st : AuthState) (u : User) : Bool :=
  match findEmailAddress st u with
  | some ea => ea.verified
  | none => false

/-- `TOTPDevice.objects.get(user=user, confirmed=True)`; the registry
assumes at most one confirmed device per user, so the first match stands
for the unique row. -/
def findConfirmedTOTP (st : AuthState) (uid : Nat) : Option TOTPDevice :=
  st.totpDevices.find? fun d => d.userId == uid && d.confirmed

/-- `TOTPDevice.objects.get(id=device_id, user=user, confirmed=False)`. -/
def findPendingTOTP (st : AuthState) (uid did : Nat) : Option TOTPDevice :=
  st.totpDevices.find? fun d => d.id == did && d.userId == uid && !d.confirmed

/-- `StaticDevice.objects.get(user=user, name="backup")`. -/
def findBackupStatic (st : AuthState) (uid : Nat) : Option StaticDevice :=
  st.staticDevices.find? fun d => d.userId == uid && d.name == "backup"

/-- `django_otp.user_has_device(user, confirmed=True)`: true when the user
owns a confirmed TOTP device or a confirmed static device. -/
def userHasDevice (st : AuthState) (uid : Nat) : Bool :=
  (st.totpDevices.any fun d => d.userId == uid && d.confirmed) ||
    (st.staticDevices.any fun d => d.userId == uid && d.confirmed)

/-- The outcome of `CustomLoginSerializer.validate` as surfaced by
`CustomLoginView.post`: `invalidCredentials` and `verificationRequired` are
400-class validation errors, `requires2fa` is the 202 challenge carrying the
user id, and `success` is the only outcome for which dj-rest-auth mints
access and refresh tokens. -/
inductive LoginOutcome where
  | invalidCredentials (msg : String)
  | verificationRequired (detail : String)
  | requires2fa (userId : Nat)
  | success (userId : Nat)
deriving Repr, DecidableEq

/-- User resolution of serializers.py lines 176-189: try the email first,
then the username only when the email lookup produced nothing. -/
def resolveLoginUser (st : AuthState) (email? username? : Option String) :
    Option User :=
  match email?.bind (findByEmail st) with
  | some u => some u
  | none => username?.bind (findByUsername st)

/-- serializers.py lines 213-216: `user.is_active = True; user.save(...)`. -/
def activateUser (st : AuthState) (uid : Nat) : AuthState :=
  { st with users := st.users.map fun v =>
      if v.id = uid then { v with isActive := true } else v }

/-- `CustomLoginSerializer.validate` (serializers.py lines 170-235): resolve
the user, check the password, gate on email verification, self-heal
`is_active`, then either raise the 202 two-factor challenge or hand the user
to token issuance. -/
def CustomLoginSerializer.validate (st : AuthState)
    (email? username? : Option String) (password : String) :
    LoginOutcome × AuthState :=
  match resolveLoginUser st email? username? with
  | none => (.invalidCredentials "Invalid credentials", st)
  | some u =>
    if password = u.password then
      match findEmailAddress st u with
      | some ea =>
        if ea.verified then
          let st1 := if u.isActive then st else activateUser st u.id
          if userHasDevice st1 u.id then (.requires2fa u.id, st1)
          else (.success u.id, st1)
        else (.verificationRequired "Please verify your email before logging in", st)
      | none =>
        (.verificationRequired "Please verify your email before logging in", st)
    else (.invalidCredentials "Invalid credentials", st)

/-- Remove leading and trailing whitespace: Python `str.strip()`. -/
def stripChars (s : List Char) : List Char :=
  ((s.dropWhile Char.isWhitespace).reverse.dropWhile Char.isWhitespace).reverse

/-- `(raw_otp or "").strip().replace(" ", "")` from views.py: strip the
ends, then drop every remaining space character. -/
def normalizeToken (raw : Option String) : String :=
  String.mk ((stripChars (raw.getD "").toList).filter fun c => c != ' ')

/-- Python `token.isdigit() and len(token) == 6`. -/
def isSixDigitCode (s : String) : Bool :=
  (s.length != 0) && s.toList.all Char.isDigit && (s.length == 6)

/-- Outcome of `CustomLoginView.verify_2fa_and_login`: `badRequest` covers
the 400 responses (missing fields, invalid token), `invalidUser` the
status-less "Invalid user" response, `accountDisabled` the 403, and
`success` the 200 that mints tokens in `complete_login`. -/
inductive Verify2faOutcome where
  | badRequest (msg : String)
  | invalidUser
  | accountDisabled
  | success (userId : Nat) (usedBackup : Bool)
deriving Repr, DecidableEq

/-- Single-use consumption of a matched backup token.  Modelled from the
spec: `django_otp` `StaticDevice.verify_token` is external to this
repository; the spec (section 4.2) states that a matched backup code is
deleted immediately, so the first device row matching (user, "backup") has
the first occurrence of the token erased. -/
def consumeFromDevices : List StaticDevice → Nat → String → List StaticDevice
  | [], _, _ => []
  | d :: rest, uid, t =>
    if d.userId == uid && d.name == "backup" then
      { d with tokens := d.tokens.erase t } :: rest
    else d :: consumeFromDevices rest uid t

/-- State update for a consumed backup code. -/
def consumeBackupToken (st : AuthState) (uid : Nat) (t : String) : AuthState :=
  { st with staticDevices := consumeFromDevices st.staticDevices uid t }

/-- The backup-code fallback of `CustomLoginView.verify_2fa_and_login`
(views.py lines 291-302): a token present in the backup static device logs
the user in (consuming the token and flagging the session), anything else is
the 400 "Invalid 2FA token." response. -/
def tryBackupLogin (st : AuthState) (sess : Session) (u : User)
    (otp : String) : Verify2faOutcome × AuthState × Session :=
  match findBackupStatic st u.id with
  | some d =>
    if otp ∈ d.tokens then
      (.success u.id true, consumeBackupToken st u.id otp,
        { sess with otpVerified := some true })
    else (.badRequest "Invalid 2FA token.", st, sess)
  | none => (.badRequest "Invalid 2FA token.", st, sess)

/-- `CustomLoginView.verify_2fa_and_login` (views.py lines 252-302):
normalize the token, require both fields, look the user up, refuse inactive
accounts with the 403, then try the confirmed TOTP device for 6-digit
tokens and fall back to the backup codes. -/
def CustomLoginView.verify2faAndLogin (st : AuthState) (sess : Session)
    (userId? : Option Nat) (rawOtp : Option String) :
    Verify2faOutcome × AuthState × Session :=
  let otp := normalizeToken rawOtp
  match userId? with
  | none => (.badRequest "User ID and token required", st, sess)
  | some uid =>
    if otp = "" then (.badRequest "User ID and token required", st, sess)
    else
      match findById st uid with
      | none => (.invalidUser, st, sess)
      | some u =>
        if u.isActive then
          if isSixDigitCode otp then
            match findConfirmedTOTP st u.id with
            | some d =>
              if d.accepts otp then
                (.success u.id false, st, { sess with otpVerified := some true })
              else tryBackupLogin st sess u otp
            | none => tryBackupLogin st sess u otp
          else tryBackupLogin st sess u otp
        else (.accountDisabled, st, sess)

/-- A code the Second-Factor Registry accepts for this user right now:
either the confirmed TOTP device accepts the 6-digit token, or the token is
one of the stored backup codes. -/
def totpAccepts (st : AuthState) (uid : Nat) (t : String) : Bool :=
  isSixDigitCode t &&
    (match findConfirmedTOTP st uid with
     | some d => d.accepts t
     | none => false)

/-- The token is among the user's backup codes. -/
def backupContains (st : AuthState) (uid : Nat) (t : String) : Bool :=
  match findBackupStatic st uid with
  | some d => d.tokens.contains t
  | none => false

/-- Acceptance by the Second-Factor Registry: TOTP or backup code. -/
def registryAccepts (st : AuthState) (uid : Nat) (t : String) : Bool :=
  totpAccepts st uid t || backupContains st uid t

/-- What the provider exchange of a social login resolved to.  The OAuth
handshake itself is the external collaborator of spec section 6; `resolved`
stands for a successful exchange that mapped the provider identity onto the
local user with this id, `failed` for an `OAuth2Error` out of the token
exchange. -/
inductive ExchangeOutcome where
  | resolved (userId : Nat)
  | failed (msg : String)
deriving Repr, DecidableEq

/-- Outcome of `SocialLogin2FAMixin.post` for a fresh social login:
`challenge` is the 202 payload raised by
`CustomSocialAccountAdapter._enforce_social_2fa`, `providerError` the 400
for a failed provider exchange, and `success` the completed login with
tokens. -/
inductive SocialStartOutcome where
  | challenge (userId : Nat) (provider : String)
  | providerError (msg : String)
  | success (userId : Nat)
deriving Repr, DecidableEq

/-- `SocialLogin2FAMixin.post` (views.py lines 46-113) combined with
`CustomSocialAccountAdapter` (adapters.py lines 109-192): the view first
pops `otp_verified`; a failed exchange surfaces as a 400; with a resolved
user owning a confirmed device, `_enforce_social_2fa` stores the three
pending-login session keys and raises the 202 challenge that the view
returns; otherwise allauth completes the login. -/
def SocialLogin2FAMixin.post (st : AuthState) (sess : Session)
    (provider : String) (exchange : ExchangeOutcome) :
    SocialStartOutcome × Session :=
  let sess0 : Session := { sess with otpVerified := none }
  match exchange with
  | .failed msg => (.providerError msg, sess0)
  | .resolved uid =>
    if userHasDevice st uid then
      (.challenge uid provider,
        { sess0 with
            pendingSocialLoginUserId := some uid
            requires2fa := some true
            socialProvider := some provider })
    else (.success uid, sess0)

/-- Outcome of `SocialLogin2FAMixin.verify_2fa_and_login`: `badRequest`
covers the 400 responses, `userNotFound` the status-less "User not found"
response, and `success` the completed login with tokens. -/
inductive SocialVerifyOutcome where
  | badRequest (msg : String)
  | userNotFound
  | success (userId : Nat) (usedBackup : Bool)
deriving Repr, DecidableEq

/-- The session after `SocialLogin2FAMixin.complete_login` (views.py lines
167-177): `social_provider`, `pending_social_login_user_id` and
`requires_2fa` popped, `otp_verified` set. -/
def socialSessionCleared : Session :=
  { pendingSocialLoginUserId := none
    requires2fa := none
    socialProvider := none
    otpVerified := some true }

/-- Backup-code fallback of the social verify flow (views.py lines
155-160), completing through `SocialLogin2FAMixin.complete_login`. -/
def socialTryBackup (st : AuthState) (sess : Session) (u : User)
    (otp : String) : SocialVerifyOutcome × AuthState × Session :=
  match findBackupStatic st u.id with
  | some d =>
    if otp ∈ d.tokens then
      (.success u.id true, consumeBackupToken st u.id otp, socialSessionCleared)
    else (.badRequest "Invalid 2FA token.", st, sess)
  | none => (.badRequest "Invalid 2FA token.", st, sess)

/-- `SocialLogin2FAMixin.verify_2fa_and_login` (views.py lines 115-165):
require both fields, compare the submitted user id against the session's
pending-login user id, look the user up, then TOTP first and backup codes
second; success clears the challenge keys via `complete_login`. -/
def SocialLogin2FAMixin.verify2faAndLogin (st : AuthState) (sess : Session)
    (userId? : Option Nat) (rawOtp : Option String) :
    SocialVerifyOutcome × AuthState × Session :=
  let otp := normalizeToken rawOtp
  match userId? with
  | none => (.badRequest "User ID and token required", st, sess)
  | some uid =>
    if otp = "" then (.badRequest "User ID and token required", st, sess)
    else
      match sess.pendingSocialLoginUserId with
      | none => (.badRequest "Invalid session or user ID mismatch", st, sess)
      | some pid =>
        if pid = uid then
          match findById st uid with
          | none => (.userNotFound, st, sess)
          | some u =>
            if isSixDigitCode otp then
              match findConfirmedTOTP st u.id with
              | some d =>
                if d.accepts otp then (.success u.id false, st, socialSessionCleared)
                else socialTryBackup st sess u otp
              | none => socialTryBackup st sess u otp
            else socialTryBackup st sess u otp
        else (.badRequest "Invalid session or user ID mismatch", st, sess)

/-- Outcome of `TwoFactorVerifySetupView.post`: a 400 error or the 200
response carrying the freshly generated backup codes. -/
inductive SetupOutcome where
  | error (msg : String)
  | enabled (backupCodes : List String)
deriving Repr, DecidableEq

/-- `device.confirmed = True; device.save()` on the row with this id. -/
def confirmTotpDevice (devs : List TOTPDevice) (did : Nat) : List TOTPDevice :=
  devs.map fun d => if d.id = did then { d with confirmed := true } else d

/-- `TwoFactorVerifySetupView.generate_backup_codes` (views.py lines
558-573): `get_or_create` the static device named "backup", delete its
whole token set, then create the ten fresh tokens — so the matching device
row ends with exactly the new codes, and a missing row is created holding
them. -/
def replaceBackupTokens : List StaticDevice → Nat → List String → List StaticDevice
  | [], uid, codes =>
    [{ userId := uid, name := "backup", confirmed := true, tokens := codes }]
  | d :: rest, uid, codes =>
    if d.userId == uid && d.name == "backup" then
      { d with tokens := codes } :: rest
    else d :: replaceBackupTokens rest uid codes

/-- `TwoFactorVerifySetupView.post` (views.py lines 520-573): validate the
token shape, fetch the pending device by (id, user, unconfirmed), and on a
token the device accepts mark it confirmed and regenerate the backup codes
(`rng` stands for `StaticToken.random_token`, drawn ten times). -/
def TwoFactorVerifySetupView.post (st : AuthState) (uid : Nat)
    (rawToken : Option String) (deviceId? : Option Nat) (rng : Nat → String) :
    SetupOutcome × AuthState :=
  let token := normalizeToken rawToken
  if token = "" then (.error "Token is required", st)
  else if isSixDigitCode token then
    match deviceId? with
    | none => (.error "Invalid device", st)
    | some did =>
      match findPendingTOTP st uid did with
      | none => (.error "Invalid device", st)
      | some d =>
        if d.accepts token then
          let codes := (List.range 10).map rng
          (.enabled codes,
            { st with
                totpDevices := confirmTotpDevice st.totpDevices did
                staticDevices := replaceBackupTokens st.staticDevices uid codes })
        else (.error "Invalid token", st)
  else (.error "Token must be a 6-digit code", st)

/-- A row of `accounts.models.PhoneVerification`; time is in seconds. -/
structure PhoneVerification where
  id : Nat
  userId : Nat
  phoneNumber : String
  verificationCode : String
  createdAt : Nat
  verifiedAt : Option Nat
  expiresAt : Nat
  attempts : Nat
deriving Repr, DecidableEq

/-- `PhoneVerification.is_expired` (models.py lines 100-103). -/
def PhoneVerification.isExpired (v : PhoneVerification) (now : Nat) : Bool :=
  decide (v.expiresAt < now)

/-- `PhoneVerification.is_valid` (models.py lines 105-107): not expired,
not yet verified, and fewer than the hard-coded five attempts. -/
def PhoneVerification.isValidRec (v : PhoneVerification) (now : Nat) : Bool :=
  !(v.isExpired now) && v.verifiedAt.isNone && decide (v.attempts < 5)

/-- A string-keyed association map standing for the Redis cache: the most
recent binding for a key shadows older ones. -/
def alistGet {α : Type} (m : List (String × α)) (k : String) : Option α :=
  (m.find? fun p => p.1 == k).map Prod.snd

/-- `cache.set key value`. -/
def alistSet {α : Type} (m : List (String × α)) (k : String) (a : α) :
    List (String × α) :=
  (k, a) :: m.filter fun p => p.1 != k

/-- `cache.delete key`. -/
def alistDel {α : Type} (m : List (String × α)) (k : String) :
    List (String × α) :=
  m.filter fun p => p.1 != k

/-- `SMSService._redis_key` normalization: drop every plus sign, space and
dash from the phone number (sms.py lines 32-36, three single-character
`replace` calls). -/
def redisKeyPhone (phone : String) : String :=
  String.mk (phone.toList.filter fun c => c != '+' && c != ' ' && c != '-')

/-- The state of the Phone OTP Service: the durable `PhoneVerification`
table, the user table it writes back to, and the three kinds of Redis
entries (`codes_sent` counters, `pending_code` payloads, `verify_attempts`
counters), keyed by the normalized phone number.  `useRedis` mirrors the
`USE_REDIS` switch read in `SMSService.__init__`. -/
structure SmsState where
  useRedis : Bool
  records : List PhoneVerification
  users : List User
  codesSent : List (String × Nat)
  pendingCache : List (String × (String × Nat))
  verifyAttempts : List (String × Nat)
deriving Repr, DecidableEq

/-- The `(success, message, is_backup_used)` triple returned by
`SMSService.verify_code`. -/
structure VerifyResult where
  success : Bool
  message : String
  isBackup : Bool
deriving Repr, DecidableEq

/-- The query of `SMSService._verify_code_db` (sms.py lines 206-210):
newest non-verified record for (phone, user), i.e. the maximal `createdAt`
among the matching rows (`order_by("-created_at").first()`). -/
def newestPending (recs : List PhoneVerification) (phone : String)
    (uid : Nat) : Option PhoneVerification :=
  (recs.filter fun v =>
      v.phoneNumber == phone && v.userId == uid && v.verifiedAt.isNone).foldl
    (fun acc v =>
      match acc with
      | none => some v
      | some w => if w.createdAt < v.createdAt then some v else some w)
    none

/-- `verification.increment_attempts()` on the row with this id. -/
def bumpAttempts (recs : List PhoneVerification) (vid : Nat) :
    List PhoneVerification :=
  recs.map fun r => if r.id = vid then { r with attempts := r.attempts + 1 } else r

/-- The row update of `PhoneVerification.mark_verified`. -/
def setVerifiedAt (recs : List PhoneVerification) (vid now : Nat) :
    List PhoneVerification :=
  recs.map fun r => if r.id = vid then { r with verifiedAt := some now } else r

/-- The user update of `PhoneVerification.mark_verified`: store the phone
number and flip `phone_number_verified`. -/
def setUserPhoneVerified (users : List User) (uid : Nat) (phone : String) :
    List User :=
  users.map fun v =>
    if v.id = uid then { v with phoneNumber := some phone, phoneVerified := true }
    else v

/-- `PhoneVerification.mark_verified` (models.py lines 116-128): a no-op on
an already verified row, otherwise stamp `verified_at` and update the
owning user. -/
def markVerified (st : SmsState) (v : PhoneVerification) (now : Nat) :
    SmsState :=
  if v.verifiedAt.isSome then st
  else
    { st with
        records := setVerifiedAt st.records v.id now
        users := setUserPhoneVerified st.users v.userId v.phoneNumber }

/-- `SMSService._verify_code_db` (sms.py lines 202-227): locate the newest
pending record, report expiry, then the attempt ceiling via `is_valid`, and
only then compare the code — a mismatch increments the attempt counter. -/
def SMSService.verifyCodeDb (st : SmsState) (now : Nat) (phone code : String)
    (uid : Nat) : VerifyResult × SmsState :=
  match newestPending st.records phone uid with
  | none => (⟨false, "No pending verification found", false⟩, st)
  | some v =>
    if v.isExpired now then (⟨false, "Verification code expired", false⟩, st)
    else if v.isValidRec now then
      if v.verificationCode = code then
        (⟨true, "Phone verified successfully", false⟩, markVerified st v now)
      else
        let remaining := 5 - (v.attempts + 1)
        (⟨false, "Invalid code. " ++ toString remaining ++ " attempts remaining.",
            false⟩,
          { st with records := bumpAttempts st.records v.id })
    else (⟨false, "Too many failed attempts. Request a new code.", false⟩, st)

/-- `SMSService._mark_verified_in_db` (sms.py lines 229-241). -/
def SMSService.markVerifiedInDb (st : SmsState) (phone : String) (uid now : Nat) :
    SmsState :=
  match newestPending st.records phone uid with
  | some v => markVerified st v now
  | none => st

/-- `SMSService._verify_code_redis` (sms.py lines 161-200) on the
exception-free path: bump the per-minute attempt counter, enforce its
ceiling, fall back to the database on a cache miss, and on a cache hit
compare code and user id, consuming the cached code on success. -/
def SMSService.verifyCodeRedis (st : SmsState) (now : Nat)
    (phone code : String) (uid maxPerMin : Nat) : VerifyResult × SmsState :=
  let key := redisKeyPhone phone
  let attempts := (alistGet st.verifyAttempts key).getD 0
  let st1 := { st with verifyAttempts := alistSet st.verifyAttempts key (attempts + 1) }
  if maxPerMin ≤ attempts then
    (⟨false, "Too many verification attempts. Wait 1 minute.", false⟩, st1)
  else
    match alistGet st1.pendingCache key with
    | none => SMSService.verifyCodeDb st1 now phone code uid
    | some (c, u) =>
      if c = code ∧ u = uid then
        let st2 :=
          { st1 with
              pendingCache := alistDel st1.pendingCache key
              verifyAttempts := alistDel st1.verifyAttempts key }
        (⟨true, "Phone verified successfully", false⟩,
          SMSService.markVerifiedInDb st2 phone uid now)
      else (⟨false, "Invalid verification code", false⟩, st1)

/-- `SMSService.verify_code` (sms.py lines 151-159). -/
def SMSService.verifyCode (st : SmsState) (now : Nat) (phone code : String)
    (uid maxPerMin : Nat) : VerifyResult × SmsState :=
  if st.useRedis then SMSService.verifyCodeRedis st now phone code uid maxPerMin
  else SMSService.verifyCodeDb st now phone code uid

/-- The record with the minimal `createdAt` among the windowed rows
(`order_by("created_at").first()`). -/
def oldestOf (recs : List PhoneVerification) : Option PhoneVerification :=
  recs.foldl
    (fun acc v =>
      match acc with
      | none => some v
      | some w => if v.createdAt < w.createdAt then some v else some w)
    none

/-- `SMSService._can_send_code_db` (sms.py lines 93-119): count the rows for
this phone created within the last hour; at or above the ceiling, deny and
report the seconds until the oldest windowed row leaves the window (clamped
at zero, as `max(wait_seconds, 0)` — natural subtraction). -/
def SMSService.canSendCodeDb (st : SmsState) (now : Nat) (phone : String)
    (maxCodes : Nat) : Bool × Nat × String :=
  let recent := st.records.filter fun v =>
    v.phoneNumber == phone && decide (now ≤ v.createdAt + 3600)
  if maxCodes ≤ recent.length then
    match oldestOf recent with
    | some oldest => (false, oldest.createdAt + 3600 - now, "Rate limit exceeded (DB)")
    | none => (true, 0, "OK")
  else (true, 0, "OK")

/-- `SMSService._can_send_code_redis` (sms.py lines 60-78) on the
exception-free path: read the `codes_sent` counter and deny with a flat
3600-second wait at or above the ceiling. -/
def SMSService.canSendCodeRedis (st : SmsState) (phone : String)
    (maxCodes : Nat) : Bool × Nat × String :=
  let count := (alistGet st.codesSent (redisKeyPhone phone)).getD 0
  if maxCodes ≤ count then (false, 3600, "Rate limit exceeded. Try again in 1 hour.")
  else (true, 0, "OK")

/-- `SMSService.can_send_code` (sms.py lines 47-58). -/
def SMSService.canSendCode (st : SmsState) (now : Nat) (phone : String)
    (maxCodes : Nat) : Bool × Nat × String :=
  if st.useRedis then SMSService.canSendCodeRedis st phone maxCodes
  else SMSService.canSendCodeDb st now phone maxCodes

/-- `SMSService.increment_code_sent_count` (sms.py lines 80-91): a no-op
without Redis, otherwise read-then-set of the hourly counter. -/
def SMSService.incrementCodeSentCount (st : SmsState) (phone : String) :
    SmsState :=
  if st.useRedis then
    let key := redisKeyPhone phone
    let count := (alistGet st.codesSent key).getD 0
    { st with codesSent := alistSet st.codesSent key (count + 1) }
  else st

/-- `SMSService.store_verification_code` (sms.py lines 121-149): cache the
code under `pending_code` when Redis is on, and always create the durable
`PhoneVerification` row with a fresh id, zero attempts and the configured
expiry. -/
def SMSService.storeVerificationCode (st : SmsState) (now : Nat)
    (phone code : String) (uid freshId expiryMinutes : Nat) :
    PhoneVerification × SmsState :=
  let st1 :=
    if st.useRedis then
      { st with pendingCache := alistSet st.pendingCache (redisKeyPhone phone) (code, uid) }
    else st
  let v : PhoneVerification :=
    { id := freshId, userId := uid, phoneNumber := phone,
      verificationCode := code, createdAt := now, verifiedAt := none,
      expiresAt := now + expiryMinutes * 60, attempts := 0 }
  (v, { st1 with records := v :: st1.records })

/-- `verification.delete()`: remove the row with this primary key. -/
def deleteRecord : List PhoneVerification → Nat → List PhoneVerification
  | [], _ => []
  | r :: rest, vid => if r.id = vid then rest else r :: deleteRecord rest vid

/-- The result dict of `send_phone_verification`; the Twilio error text of
the failure branch is external and not modelled. -/
inductive SendResult where
  | rateLimited (detail : String) (waitSeconds : Nat)
  | sent (expiresInMinutes : Nat)
  | smsFailed
deriving Repr, DecidableEq

/-- `send_phone_verification` (sms.py lines 272-318): check the rate limit,
generate and store the code (`code` stands for the drawn random code,
`dispatchOk` for the Twilio outcome), then on a failed dispatch delete the
just-created row. -/
def sendPhoneVerification (st : SmsState) (now uid : Nat)
    (phone code : String) (freshId : Nat) (dispatchOk : Bool)
    (maxCodes expiryMinutes : Nat) : SendResult × SmsState :=
  match SMSService.canSendCode st now phone maxCodes with
  | (false, wait, reason) => (.rateLimited reason wait, st)
  | (true, _, _) =>
    let vs := SMSService.storeVerificationCode st now phone code uid freshId expiryMinutes
    if dispatchOk then (.sent expiryMinutes, vs.2)
    else (.smsFailed, { vs.2 with records := deleteRecord vs.2.records vs.1.id })

/-- The response of the `send_verification_code` view: `ok` is the 200,
`rateLimited` the 429 carrying `retry_after`, `serverError` the 500 of a
failed dispatch, and `missingResponse` the path on which the Python
function falls off the end and returns `None` (success with the submitted
phone equal to the stored one). -/
inductive SendCodeResponse where
  | ok (phone : String) (expiresInMinutes : Nat)
  | rateLimited (detail : String) (retryAfter : Nat)
  | serverError
  | missingResponse
deriving Repr, DecidableEq

/-- `user.phone_number = phone; user.phone_number_verified = False` as done
by the send view before incrementing the counter. -/
def setUserPhoneUnverified (users : List User) (uid : Nat) (phone : String) :
    List User :=
  users.map fun v =>
    if v.id = uid then { v with phoneNumber := some phone, phoneVerified := false }
    else v

/-- `send_verification_code` (views.py lines 658-727): run
`send_phone_verification`; on success the user update, the counter
increment and the 200 response all sit inside the
`if request.user.phone_number != phone_number` block, so a send to the
already-stored phone produces no increment and no response; failures map to
429 or 500.  The requester is resolved from the state (`request.user`). -/
def sendVerificationCodeView (st : SmsState) (requesterId : Nat)
    (phone code : String) (freshId now : Nat) (dispatchOk : Bool)
    (maxCodes expiryMinutes : Nat) : SendCodeResponse × SmsState :=
  match st.users.find? (fun v => v.id == requesterId) with
  | none => (.serverError, st)
  | some user =>
    match sendPhoneVerification st now requesterId phone code freshId dispatchOk
        maxCodes expiryMinutes with
    | (.sent m, st1) =>
      if user.phoneNumber = some phone then (.missingResponse, st1)
      else
        let st2 := { st1 with users := setUserPhoneUnverified st1.users requesterId phone }
        let st3 := SMSService.incrementCodeSentCount st2 phone
        (.ok phone m, st3)
    | (.rateLimited reason wait, st1) => (.rateLimited reason wait, st1)
    | (.smsFailed, st1) => (.serverError, st1)

/-- Modelled from the spec: the Django settings module is not under `src/`,
and spec sections 4.3 and 8 fix the hourly send ceiling
(`PHONE_VERIFICATION["RATE_LIMIT_CODES_PER_HOUR"]`) at 5. -/
def specMaxCodesPerHour : Nat := 5

/-- Modelled from the spec: the Django settings module is not under `src/`,
and spec sections 3 and 4.3 fix the code expiry
(`PHONE_VERIFICATION["CODE_EXPIRY_MINUTES"]`) at 10 minutes. -/
def specCodeExpiryMinutes : Nat := 10

/-! Concrete fixtures used by the witness theorems. -/

/-- A verified, active sample user. -/
def sampleUser : User :=
  { id := 1, email := "a@x.com", username := "alice", password := "pw1",
    isActive := true, phoneNumber := some "+15550001111", phoneVerified := false }

/-- A confirmed TOTP device for the sample user accepting one code. -/
def sampleTotp : TOTPDevice :=
  { id := 7, userId := 1, confirmed := true, accepts := fun s => s == "123456" }

/-- An unconfirmed (setup-pending) TOTP device for the sample user. -/
def samplePendingTotp : TOTPDevice :=
  { id := 9, userId := 1, confirmed := false, accepts := fun s => s == "654321" }

/-- The backup static device of the sample user with two codes. -/
def sampleBackup : StaticDevice :=
  { userId := 1, name := "backup", confirmed := true, tokens := ["CODEA", "CODEB"] }

/-- Sample state: verified email, confirmed TOTP device and backup codes. -/
def stMain : AuthState :=
  { users := [sampleUser]
    emailAddresses := [{ userId := 1, email := "a@x.com", verified := true }]
    totpDevices := [sampleTotp]
    staticDevices := [sampleBackup] }

/-- Sample state whose email address exists but is unverified. -/
def stUnverified : AuthState :=
  { users := [sampleUser]
    emailAddresses := [{ userId := 1, email := "a@x.com", verified := false }]
    totpDevices := []
    staticDevices := [] }

/-- Sample state with an inactive user owning a working confirmed device. -/
def stInactive : AuthState :=
  { users := [{ sampleUser with isActive := false }]
    emailAddresses := [{ userId := 1, email := "a@x.com", verified := true }]
    totpDevices := [sampleTotp]
    staticDevices := [sampleBackup] }

/-- Sample state with backup codes only (no TOTP device). -/
def stBackupOnly : AuthState :=
  { users := [sampleUser]
    emailAddresses := [{ userId := 1, email := "a@x.com", verified := true }]
    totpDevices := []
    staticDevices := [sampleBackup] }

/-- Sample state with a setup-pending TOTP device and stale backup codes. -/
def stPendingSetup : AuthState :=
  { users := [sampleUser]
    emailAddresses := [{ userId := 1, email := "a@x.com", verified := true }]
    totpDevices := [samplePendingTotp]
    staticDevices := [{ sampleBackup with tokens := ["OLD1", "OLD2"] }] }

/-- Sample SMS state (database mode) whose only pending record has already
burned its five attempts. -/
def smsExhausted : SmsState :=
  { useRedis := false
    records := [{ id := 3, userId := 1, phoneNumber := "+15550001111",
                  verificationCode := "999999", createdAt := 0,
                  verifiedAt := none, expiresAt := 600, attempts := 5 }]
    users := [sampleUser]
    codesSent := [], pendingCache := [], verifyAttempts := [] }

/-- Sample SMS state in Redis mode with no history. -/
def smsRedisEmpty : SmsState :=
  { useRedis := true, records := [], users := [sampleUser]
    codesSent := [], pendingCache := [], verifyAttempts := [] }

/-- One successful send of the send-code view against `smsRedisEmpty`
inputs: step `k` sends at time `60 * k` with fresh row id `k + 1`. -/
def sendStep (st : SmsState) (k : Nat) : SmsState :=
  (sendVerificationCodeView st 1 "+15550001111" "123456" (k + 1) (60 * k) true
    specMaxCodesPerHour specCodeExpiryMinutes).2

/-! Theorems. -/

/-- C3: for a user resolved with the correct password whose email address
record is missing or unverified, login returns the `VerificationRequired`
failure — a constructor distinct from `InvalidCredentials`, `requires2fa`
and `success` — with the state unchanged, so no token is issued and the
two-factor check is never reached. -/
theorem c3_unverified_email_blocks_login (st : AuthState)
    (email? username? : Option String) (u : User) (pwd : String)
    (hu : resolveLoginUser st email? username? = some u)
    (hpw : pwd = u.password)
    (hev : emailVerifiedLookup st u = false) :
    CustomLoginSerializer.validate st email? username? pwd
      = (.verificationRequired "Please verify your email before logging in", st) := by
  unfold CustomLoginSerializer.validate
  unfold emailVerifiedLookup at hev
  rw [hu, hpw]
  cases h : findEmailAddress st u with
  | none => simp [h]
  | some ea => rw [h] at hev; simp at hev; simp [h, hev]

/-- Witness for C3 at the concrete unverified-email state. -/
theorem c3_witness :
    CustomLoginSerializer.validate stUnverified (some "a@x.com") none "pw1"
      = (.verificationRequired "Please verify your email before logging in",
          stUnverified) :=
  c3_unverified_email_blocks_login stUnverified (some "a@x.com") none sampleUser
    "pw1" rfl rfl (by decide)

/-- C9: the login failure for an unknown identifier and the failure for a
known identifier with a wrong password are the very same outcome — the
`InvalidCredentials` error with the identical message and no state change —
so the two causes are indistinguishable to the caller. -/
theorem c9_uniform_invalid_credentials (st : AuthState)
    (e1 un1 e2 un2 : Option String) (p1 p2 : String) (u : User)
    (h1 : resolveLoginUser st e1 un1 = none)
    (h2 : resolveLoginUser st e2 un2 = some u)
    (hp : p2 ≠ u.password) :
    CustomLoginSerializer.validate st e1 un1 p1
        = CustomLoginSerializer.validate st e2 un2 p2
      ∧ (CustomLoginSerializer.validate st e1 un1 p1).1
        = .invalidCredentials "Invalid credentials" := by
  unfold CustomLoginSerializer.validate
  rw [h1, h2]
  simp [hp]

/-- Witness for C9: unknown email versus wrong password at the concrete
state. -/
theorem c9_witness :
    CustomLoginSerializer.validate stMain (some "nobody@x.com") none "pw1"
        = CustomLoginSerializer.validate stMain (some "a@x.com") none "wrong"
      ∧ (CustomLoginSerializer.validate stMain (some "nobody@x.com") none "pw1").1
        = .invalidCredentials "Invalid credentials" :=
  c9_uniform_invalid_credentials stMain (some "nobody@x.com") none
    (some "a@x.com") none "pw1" "wrong" sampleUser rfl rfl (by decide)

/-- C10: in the password-login two-factor completion step, an inactive user
is rejected with the account-disabled 403 before any TOTP or backup code is
checked: the outcome, state and session are fixed for every submitted
token, so even a valid code issues no tokens. -/
theorem c10_inactive_user_2fa_rejected (st : AuthState) (sess : Session)
    (uid : Nat) (u : User) (rawOtp : Option String)
    (hu : findById st uid = some u)
    (hin : u.isActive = false)
    (hne : normalizeToken rawOtp ≠ "") :
    CustomLoginView.verify2faAndLogin st sess (some uid) rawOtp
      = (.accountDisabled, st, sess) := by
  unfold CustomLoginView.verify2faAndLogin
  simp only [hu, hne, hin]
  simp

/-- Witness for C10: the inactive sample user submits the very code the
confirmed device accepts and is still rejected with the 403. -/
theorem c10_witness :
    CustomLoginView.verify2faAndLogin stInactive
        ⟨none, none, none, none⟩ (some 1) (some "123456")
      = (.accountDisabled, stInactive, ⟨none, none, none, none⟩) :=
  c10_inactive_user_2fa_rejected stInactive ⟨none, none, none, none⟩ 1
    { sampleUser with isActive := false } (some "123456") rfl rfl (by decide)

/-- C2: once the newest pending phone-verification record for (phone, user)
has accumulated five attempts, a further database-mode verify call fails
with the too-many-attempts message and leaves the state untouched for every
submitted code — in particular for the correct one, since `is_valid` is
checked before the code comparison. -/
theorem c2_attempt_ceiling_blocks_correct_code (st : SmsState) (now : Nat)
    (phone code : String) (uid maxPerMin : Nat) (v : PhoneVerification)
    (hr : st.useRedis = false)
    (hv : newestPending st.records phone uid = some v)
    (hexp : v.isExpired now = false)
    (hatt : 5 ≤ v.attempts) :
    SMSService.verifyCode st now phone code uid maxPerMin
      = (⟨false, "Too many failed attempts. Request a new code.", false⟩, st) := by
  have hlt : ¬(v.attempts < 5) := by omega
  unfold SMSService.verifyCode SMSService.verifyCodeDb
  simp [hr, hv, hexp, PhoneVerification.isValidRec, hlt]

/-- Witness for C2: the exhausted record rejects even its own stored code. -/
theorem c2_witness :
    SMSService.verifyCode smsExhausted 100 "+15550001111" "999999" 1 10
      = (⟨false, "Too many failed attempts. Request a new code.", false⟩,
          smsExhausted) :=
  c2_attempt_ceiling_blocks_correct_code smsExhausted 100 "+15550001111"
    "999999" 1 10
    { id := 3, userId := 1, phoneNumber := "+15550001111",
      verificationCode := "999999", createdAt := 0, verifiedAt := none,
      expiresAt := 600, attempts := 5 }
    (by decide) (by decide) (by decide) (by decide)

/-- C7: for every send on which the SMS dispatch fails, the view increments
no rate-limit counter, deletes the `PhoneVerification` row created for the
send (the durable table is exactly as before), leaves the user untouched,
and returns no success response — so a failed dispatch never counts against
the hourly quota. -/
theorem c7_failed_dispatch_not_counted (st : SmsState) (rid : Nat)
    (phone code : String) (fid now maxCodes em : Nat) :
    ((sendVerificationCodeView st rid phone code fid now false maxCodes em).2.codesSent
        = st.codesSent)
    ∧ ((sendVerificationCodeView st rid phone code fid now false maxCodes em).2.records
        = st.records)
    ∧ ((sendVerificationCodeView st rid phone code fid now false maxCodes em).2.users
        = st.users)
    ∧ ∀ p m, (sendVerificationCodeView st rid phone code fid now false maxCodes em).1
        ≠ .ok p m := by
  unfold sendVerificationCodeView sendPhoneVerification
  unfold SMSService.storeVerificationCode
  cases hfind : st.users.find? (fun v => v.id == rid) with
  | none => simp
  | some user =>
    cases hcan : SMSService.canSendCode st now phone maxCodes with
    | mk allowed rest =>
      cases allowed with
      | false => simp [deleteRecord]
      | true =>
        cases hred : st.useRedis with
        | false => simp [hred, deleteRecord]
        | true => simp [hred, deleteRecord]

/-- Helper: the backup fallback of the password-login verify step succeeds
only when the submitted token is among the stored backup codes. -/
lemma tryBackupLogin_success_mem {st : AuthState} {sess : Session} {u : User}
    {otp : String} {j : Nat} {b : Bool} {st' : AuthState} {sess' : Session}
    (h : tryBackupLogin st sess u otp = (.success j b, st', sess')) :
    j = u.id ∧ backupContains st u.id otp = true := by
  unfold tryBackupLogin at h
  unfold backupContains
  cases hb : findBackupStatic st u.id with
  | none => rw [hb] at h; simp at h
  | some d =>
    rw [hb] at h
    by_cases hm : otp ∈ d.tokens
    · have hj := congrArg (fun p => p.1) h
      simp [hm] at hj
      show j = u.id ∧ d.tokens.contains otp = true
      exact ⟨hj.1.symm, List.elem_iff.mpr hm⟩
    · simp [hm] at h

/-- Helper: whenever `CustomLoginView.verify_2fa_and_login` completes the
login, the submitted token (after normalization) was accepted by the
Second-Factor Registry: the confirmed TOTP device took it, or it was one of
the stored backup codes. -/
lemma verify2fa_success_accepted {st : AuthState} {sess : Session} {uid j : Nat}
    {tok : Option String} {b : Bool} {st' : AuthState} {sess' : Session}
    (h : CustomLoginView.verify2faAndLogin st sess (some uid) tok
      = (.success j b, st', sess')) :
    registryAccepts st j (normalizeToken tok) = true := by
  unfold CustomLoginView.verify2faAndLogin at h
  simp only [] at h
  by_cases h0 : normalizeToken tok = ""
  · rw [if_pos h0] at h; simp at h
  · rw [if_neg h0] at h
    cases hu : findById st uid with
    | none => rw [hu] at h; simp at h
    | some u =>
      rw [hu] at h
      cases hact : u.isActive with
      | false => simp [hact] at h
      | true =>
        simp only [hact, if_true] at h
        by_cases hdig : isSixDigitCode (normalizeToken tok) = true
        · rw [if_pos hdig] at h
          cases hd : findConfirmedTOTP st u.id with
          | none =>
            rw [hd] at h
            obtain ⟨hj, hc⟩ := tryBackupLogin_success_mem h
            simp [registryAccepts, hj, hc]
          | some d =>
            rw [hd] at h
            by_cases hacc : d.accepts (normalizeToken tok) = true
            · have hj := congrArg (fun p => p.1) h
              simp [hacc] at hj
              simp [registryAccepts, totpAccepts, ← hj.1, hd, hdig, hacc]
            · simp only [hacc] at h
              simp at h
              obtain ⟨hj, hc⟩ := tryBackupLogin_success_mem h
              simp [registryAccepts, hj, hc]
        · rw [if_neg hdig] at h
          obtain ⟨hj, hc⟩ := tryBackupLogin_success_mem h
          simp [registryAccepts, hj, hc]

/-- C1: for a user with the correct password, a verified email and an
active (confirmed) second-factor device, login stops at the 202
`RequiresSecondFactor` challenge carrying the user id — never the
token-issuing `success` outcome — and the subsequent
`verify_login_2fa` step issues tokens only for a token the Second-Factor
Registry accepts. -/
theorem c1_active_device_forces_challenge (st : AuthState)
    (email? username? : Option String) (u : User) (pwd : String)
    (ea : EmailAddress)
    (hu : resolveLoginUser st email? username? = some u)
    (hpw : pwd = u.password)
    (hea : findEmailAddress st u = some ea)
    (hv : ea.verified = true)
    (hdev : userHasDevice st u.id = true) :
    (CustomLoginSerializer.validate st email? username? pwd).1
        = .requires2fa u.id
    ∧ (∀ j, (CustomLoginSerializer.validate st email? username? pwd).1
        ≠ .success j)
    ∧ ∀ sess uid tok j b st' sess',
        CustomLoginView.verify2faAndLogin
            (CustomLoginSerializer.validate st email? username? pwd).2 sess
            (some uid) tok = (.success j b, st', sess') →
          registryAccepts (CustomLoginSerializer.validate st email? username? pwd).2
            j (normalizeToken tok) = true := by
  have hval : (CustomLoginSerializer.validate st email? username? pwd).1
      = .requires2fa u.id := by
    unfold CustomLoginSerializer.validate
    rw [hu, hpw]
    cases hact : u.isActive with
    | true => simp [hea, hv, hact, hdev]
    | false =>
      have hdev2 : userHasDevice (activateUser st u.id) u.id = true := by
        unfold userHasDevice at hdev ⊢
        unfold activateUser
        simpa using hdev
      simp [hea, hv, hact, hdev2]
  refine ⟨hval, by simp [hval], ?_⟩
  intro sess uid tok j b st' sess' h
  exact verify2fa_success_accepted h

/-- Witness for C1 at the concrete state with a confirmed TOTP device. -/
theorem c1_witness :
    (CustomLoginSerializer.validate stMain (some "a@x.com") none "pw1").1
        = .requires2fa 1
    ∧ (∀ j, (CustomLoginSerializer.validate stMain (some "a@x.com") none "pw1").1
        ≠ .success j) := by
  have h := c1_active_device_forces_challenge stMain (some "a@x.com") none
    sampleUser "pw1" { userId := 1, email := "a@x.com", verified := true }
    rfl rfl rfl rfl rfl
  exact ⟨h.1, h.2.1⟩

/-- Helper: consuming a token rewrites the first (user, "backup") device to
the same device with the token erased, as seen through the registry
lookup. -/
lemma find_consumeFromDevices (l : List StaticDevice) (uid : Nat) (t : String)
    (d : StaticDevice)
    (h : l.find? (fun x => x.userId == uid && x.name == "backup") = some d) :
    (consumeFromDevices l uid t).find?
        (fun x => x.userId == uid && x.name == "backup")
      = some { d with tokens := d.tokens.erase t } := by
  induction l with
  | nil => simp at h
  | cons a rest ih =>
    by_cases hc : (a.userId == uid && a.name == "backup") = true
    · rw [List.find?_cons_of_pos (p := fun x : StaticDevice => x.userId == uid && x.name == "backup") _ hc] at h
      have had : a = d := by injection h
      subst had
      unfold consumeFromDevices
      rw [if_pos hc]
      simp only [List.find?_cons]
      rw [show (({ a with tokens := a.tokens.erase t } : StaticDevice).userId == uid
          && ({ a with tokens := a.tokens.erase t } : StaticDevice).name == "backup")
          = true from hc]
    · rw [List.find?_cons_of_neg (p := fun x : StaticDevice => x.userId == uid && x.name == "backup") _ (by simpa using hc)] at h
      unfold consumeFromDevices
      rw [if_neg (by simpa using hc)]
      rw [List.find?_cons_of_neg (p := fun x : StaticDevice => x.userId == uid && x.name == "backup") _ (by simpa using hc)]
      exact ih h

/-- Helper: state-level form of `find_consumeFromDevices`. -/
lemma findBackupStatic_consume {st : AuthState} {uid : Nat} {t : String}
    {d : StaticDevice} (h : findBackupStatic st uid = some d) :
    findBackupStatic (consumeBackupToken st uid t) uid
      = some { d with tokens := d.tokens.erase t } := by
  unfold findBackupStatic consumeBackupToken at *
  exact find_consumeFromDevices st.staticDevices uid t d h

/-- C4: a backup code present exactly once in the set is single-use: the
first submission completes the login via the backup path (the matched code
is erased from the stored set), and resubmitting the same code to the
resulting state fails with the invalid-token error — the code is never
accepted twice. -/
theorem c4_backup_code_single_use (st : AuthState) (sess : Session)
    (uid : Nat) (u : User) (c : String) (d : StaticDevice)
    (hu : findById st uid = some u)
    (hact : u.isActive = true)
    (hnorm : normalizeToken (some c) = c)
    (hne : c ≠ "")
    (htotp : totpAccepts st u.id c = false)
    (hb : findBackupStatic st u.id = some d)
    (hcount : d.tokens.count c = 1) :
    CustomLoginView.verify2faAndLogin st sess (some uid) (some c)
      = (.success u.id true, consumeBackupToken st u.id c,
          { sess with otpVerified := some true })
    ∧ (CustomLoginView.verify2faAndLogin (consumeBackupToken st u.id c)
          { sess with otpVerified := some true } (some uid) (some c)).1
      = .badRequest "Invalid 2FA token." := by
  have hmem : c ∈ d.tokens := by
    have : 0 < d.tokens.count c := by omega
    exact List.count_pos_iff.mp this
  have hnotmem : c ∉ d.tokens.erase c := by
    have h0 : (d.tokens.erase c).count c = 0 := by
      rw [List.count_erase_self, hcount]
    exact List.count_eq_zero.mp h0
  have hb2 := findBackupStatic_consume (t := c) hb
  have hufl : findById (consumeBackupToken st u.id c) uid = findById st uid := rfl
  have hrfl : findConfirmedTOTP (consumeBackupToken st u.id c) u.id
      = findConfirmedTOTP st u.id := rfl
  constructor
  · unfold CustomLoginView.verify2faAndLogin
    simp only [hnorm, hu]
    by_cases hdig : isSixDigitCode c = true
    · cases hd : findConfirmedTOTP st u.id with
      | none => simp [hne, hact, hdig, hd, tryBackupLogin, hb, hmem]
      | some dev =>
        have hrej : dev.accepts c = false := by
          unfold totpAccepts at htotp
          rw [hd] at htotp
          simpa [hdig] using htotp
        simp [hne, hact, hdig, hd, hrej, tryBackupLogin, hb, hmem]
    · simp [hne, hact, hdig, tryBackupLogin, hb, hmem]
  · unfold CustomLoginView.verify2faAndLogin
    simp only [hnorm, hufl, hu]
    by_cases hdig : isSixDigitCode c = true
    · cases hd : findConfirmedTOTP st u.id with
      | none =>
        rw [hrfl] at *
        simp [hne, hact, hdig, hd, tryBackupLogin, hb2, hnotmem]
      | some dev =>
        have hrej : dev.accepts c = false := by
          unfold totpAccepts at htotp
          rw [hd] at htotp
          simpa [hdig] using htotp
        rw [hrfl] at *
        simp [hne, hact, hdig, hd, hrej, tryBackupLogin, hb2, hnotmem]
    · simp [hne, hact, hdig, tryBackupLogin, hb2, hnotmem]

/-- Witness for C4: the code "CODEA" of the backup-only state logs in once
and is rejected when resubmitted. -/
theorem c4_witness :
    CustomLoginView.verify2faAndLogin stBackupOnly ⟨none, none, none, none⟩
        (some 1) (some "CODEA")
      = (.success 1 true, consumeBackupToken stBackupOnly 1 "CODEA",
          { pendingSocialLoginUserId := none, requires2fa := none,
            socialProvider := none, otpVerified := some true })
    ∧ (CustomLoginView.verify2faAndLogin
          (consumeBackupToken stBackupOnly 1 "CODEA")
          { pendingSocialLoginUserId := none, requires2fa := none,
            socialProvider := none, otpVerified := some true }
          (some 1) (some "CODEA")).1
      = .badRequest "Invalid 2FA token." :=
  c4_backup_code_single_use stBackupOnly ⟨none, none, none, none⟩ 1 sampleUser
    "CODEA" sampleBackup rfl rfl (by decide) (by decide) rfl rfl (by decide)

/-- Helper: a 6-digit code is nonempty. -/
lemma isSixDigitCode_ne_empty {t : String} (h : isSixDigitCode t = true) :
    t ≠ "" := by
  intro he
  subst he
  simp [isSixDigitCode] at h

/-- C5: the social-login flow for a user with a confirmed device — (a) a
successful provider exchange is converted into the 202 challenge carrying
the user id, with the three pending-login keys stored in the session;
(b) a verify call whose submitted user id differs from the session's
pending-login user id is rejected; (c) with the matching id and a code the
confirmed TOTP device accepts, login completes with tokens and the
challenge keys are cleared from the session. -/
theorem c5_social_login_2fa_flow (st : AuthState) (sess : Session)
    (provider : String) (uid : Nat) (u : User)
    (hdev : userHasDevice st uid = true)
    (hu : findById st uid = some u) :
    (SocialLogin2FAMixin.post st sess provider (.resolved uid)
      = (.challenge uid provider,
          { pendingSocialLoginUserId := some uid, requires2fa := some true,
            socialProvider := some provider, otpVerified := none }))
    ∧ (∀ sess2 (pid uid2 : Nat) (tok : Option String),
        sess2.pendingSocialLoginUserId = some pid → pid ≠ uid2 →
        normalizeToken tok ≠ "" →
        SocialLogin2FAMixin.verify2faAndLogin st sess2 (some uid2) tok
          = (.badRequest "Invalid session or user ID mismatch", st, sess2))
    ∧ (∀ sess3 (tok : Option String),
        sess3.pendingSocialLoginUserId = some uid →
        totpAccepts st u.id (normalizeToken tok) = true →
        SocialLogin2FAMixin.verify2faAndLogin st sess3 (some uid) tok
          = (.success u.id false, st, socialSessionCleared)) := by
  refine ⟨?_, ?_, ?_⟩
  · unfold SocialLogin2FAMixin.post
    simp [hdev]
  · intro sess2 pid uid2 tok hpid hne hnet
    unfold SocialLogin2FAMixin.verify2faAndLogin
    simp [hpid, hne, hnet]
  · intro sess3 tok hpid hacc
    have hdig : isSixDigitCode (normalizeToken tok) = true := by
      unfold totpAccepts at hacc
      exact (Bool.and_eq_true_iff.mp hacc).1
    have hnet : normalizeToken tok ≠ "" := isSixDigitCode_ne_empty hdig
    cases hd : findConfirmedTOTP st u.id with
    | none =>
      unfold totpAccepts at hacc
      rw [hd] at hacc
      simp at hacc
    | some d =>
      have hda : d.accepts (normalizeToken tok) = true := by
        unfold totpAccepts at hacc
        rw [hd] at hacc
        simpa [hdig] using hacc
      unfold SocialLogin2FAMixin.verify2faAndLogin
      simp [hpid, hnet, hu, hdig, hd, hda]

/-- Witness for C5 at the concrete state: challenge on start, rejection on
user-id mismatch, completion with cleared session keys on a match. -/
theorem c5_witness :
    (SocialLogin2FAMixin.post stMain ⟨none, none, none, none⟩ "google"
        (.resolved 1)
      = (.challenge 1 "google",
          { pendingSocialLoginUserId := some 1, requires2fa := some true,
            socialProvider := some "google", otpVerified := none }))
    ∧ (SocialLogin2FAMixin.verify2faAndLogin stMain
          ⟨some 2, some true, some "google", none⟩ (some 1) (some "123456")
        = (.badRequest "Invalid session or user ID mismatch", stMain,
            ⟨some 2, some true, some "google", none⟩))
    ∧ (SocialLogin2FAMixin.verify2faAndLogin stMain
          ⟨some 1, some true, some "google", none⟩ (some 1) (some "123456")
        = (.success 1 false, stMain, socialSessionCleared)) := by
  have h := c5_social_login_2fa_flow stMain ⟨none, none, none, none⟩ "google" 1
    sampleUser rfl rfl
  exact ⟨h.1,
    h.2.1 ⟨some 2, some true, some "google", none⟩ 2 1 (some "123456") rfl
      (by decide) (by decide),
    h.2.2 ⟨some 1, some true, some "google", none⟩ (some "123456") rfl
      (by decide)⟩

/-- Helper: after `replaceBackupTokens`, the registry lookup of the
(user, "backup") device sees exactly the new codes — every code of a prior
set is gone. -/
lemma find_replaceBackupTokens (l : List StaticDevice) (uid : Nat)
    (codes : List String) :
    ((replaceBackupTokens l uid codes).find?
        (fun x => x.userId == uid && x.name == "backup")).map
        StaticDevice.tokens
      = some codes := by
  induction l with
  | nil => simp [replaceBackupTokens, List.find?_cons]
  | cons a rest ih =>
    by_cases hc : (a.userId == uid && a.name == "backup") = true
    · unfold replaceBackupTokens
      rw [if_pos hc]
      simp only [List.find?_cons]
      rw [show (({ a with tokens := codes } : StaticDevice).userId == uid
          && ({ a with tokens := codes } : StaticDevice).name == "backup")
          = true from hc]
      simp
    · unfold replaceBackupTokens
      rw [if_neg hc]
      rw [List.find?_cons_of_neg
        (p := fun x : StaticDevice => x.userId == uid && x.name == "backup") _
        (by simpa using hc)]
      exact ih

/-- C8: confirming two-factor setup with a pending (unconfirmed) device —
on a code the device accepts, the response carries exactly ten fresh backup
codes, the device is saved confirmed, and the backup set visible to the
registry afterwards consists of exactly the ten new codes (any prior set is
fully replaced); on a rejected code the view answers the invalid-token
error and the state, the pending device included, is unchanged. -/
theorem c8_confirm_setup_backup_codes (st : AuthState) (uid did : Nat)
    (rawToken : Option String) (rng : Nat → String) (d : TOTPDevice)
    (hne : normalizeToken rawToken ≠ "")
    (hdig : isSixDigitCode (normalizeToken rawToken) = true)
    (hd : findPendingTOTP st uid did = some d) :
    (d.accepts (normalizeToken rawToken) = true →
      TwoFactorVerifySetupView.post st uid rawToken (some did) rng
        = (.enabled ((List.range 10).map rng),
            { st with
                totpDevices := confirmTotpDevice st.totpDevices did
                staticDevices :=
                  replaceBackupTokens st.staticDevices uid ((List.range 10).map rng) })
      ∧ ((List.range 10).map rng).length = 10
      ∧ ((findBackupStatic
            { st with
                totpDevices := confirmTotpDevice st.totpDevices did
                staticDevices :=
                  replaceBackupTokens st.staticDevices uid ((List.range 10).map rng) }
            uid).map StaticDevice.tokens
          = some ((List.range 10).map rng)))
    ∧ (d.accepts (normalizeToken rawToken) = false →
      TwoFactorVerifySetupView.post st uid rawToken (some did) rng
        = (.error "Invalid token", st)) := by
  constructor
  · intro hacc
    refine ⟨?_, by simp, ?_⟩
    · unfold TwoFactorVerifySetupView.post
      simp [hne, hdig, hd, hacc]
    · unfold findBackupStatic
      exact find_replaceBackupTokens st.staticDevices uid ((List.range 10).map rng)
  · intro hacc
    unfold TwoFactorVerifySetupView.post
    simp [hne, hdig, hd, hacc]

/-- Witness for C8: confirming the pending sample device with its accepted
code yields ten codes and replaces the stale backup set. -/
theorem c8_witness :
    (TwoFactorVerifySetupView.post stPendingSetup 1 (some "654321") (some 9)
        (fun k => "NEW" ++ toString k)).1
      = .enabled ((List.range 10).map fun k => "NEW" ++ toString k)
    ∧ ((List.range 10).map fun k => "NEW" ++ toString k).length = 10
    ∧ (TwoFactorVerifySetupView.post stPendingSetup 1 (some "000000") (some 9)
        (fun k => "NEW" ++ toString k))
      = (.error "Invalid token", stPendingSetup) := by
  have ha := c8_confirm_setup_backup_codes stPendingSetup 1 9 (some "654321")
    (fun k => "NEW" ++ toString k) samplePendingTotp (by decide) (by decide) rfl
  have hb := c8_confirm_setup_backup_codes stPendingSetup 1 9 (some "000000")
    (fun k => "NEW" ++ toString k) samplePendingTotp (by decide) (by decide) rfl
  refine ⟨?_, (ha.1 rfl).2.1, hb.2 rfl⟩
  rw [(ha.1 rfl).1]

/-- C6 evaluation at the failing input: in Redis mode, five send-code
requests for the phone already stored on the requesting user all dispatch
successfully (five windowed `PhoneVerification` rows exist, enough for the
database counter to deny), yet the `codes_sent` counter was never
incremented — the view only increments inside the phone-number-changed
branch — so the sixth request is dispatched again (falling off the end of
the view) instead of being denied with the 429 rate-limit response. -/
theorem c6_sixth_send_not_rate_limited :
    (((List.range 5).foldl sendStep smsRedisEmpty).codesSent = [])
    ∧ (((List.range 5).foldl sendStep smsRedisEmpty).records.length = 5)
    ∧ ((SMSService.canSendCodeDb ((List.range 5).foldl sendStep smsRedisEmpty)
          300 "+15550001111" specMaxCodesPerHour).1 = false)
    ∧ ((sendVerificationCodeView ((List.range 5).foldl sendStep smsRedisEmpty)
          1 "+15550001111" "123456" 6 300 true specMaxCodesPerHour
          specCodeExpiryMinutes).1 = .missingResponse) := by
  exact ⟨rfl, rfl, rfl, rfl⟩

end MiniEcom
